import Mathlib

/-!
Verification of the COVID-19-Forecast dashboard (`src/app.py`) against its
specification.  The pandas/numpy pipeline is shallowly embedded: a `RawTable`
models the CSV fetched by `pd.read_csv`, `getData` models the cohort
aggregator, `getTotal` the latest-totals reader, `generatePredictions` and
`plotPrediction` the forecast stage (the external PMProphet sampler is a
parameter), and `generateLatestTable`/`generateNewsTable`/`buildLayout` the
remaining refresh steps.  Machine floats produced by `np.log` and by integer
true division are modelled symbolically (`NpFloat`, `DivResult`) — only their
NaN, -inf or finite structure matters to the verified properties, never their
binary representation.
-/

namespace Covid

/-! ### Data model -/

/-- One CSV row: `Province/State`, `Country/Region`, `Lat`, `Long`, then one
cumulative count per date column.  Date labels are kept as opaque strings
(`pd.to_datetime` on well-formed labels only relabels the index and none of
the verified properties depends on date parsing). -/
structure RawRow where
  province : String
  region : String
  lat : Int
  long : Int
  counts : List Int
deriving Repr, DecidableEq, Inhabited

/-- The region-by-date matrix returned by `pd.read_csv(url)`. -/
structure RawTable where
  dates : List String
  rows : List RawRow
deriving Repr, DecidableEq, Inhabited

/-- A table is well formed when every row carries one cell per date column. -/
def RawTable.wellFormed (t : RawTable) : Prop :=
  ∀ r ∈ t.rows, r.counts.length = t.dates.length

instance (t : RawTable) : Decidable t.wellFormed :=
  inferInstanceAs (Decidable (∀ r ∈ t.rows, r.counts.length = t.dates.length))

/-- The count cell of row `r` at date index `i` (0 outside the row, matching
pandas alignment of a well-formed frame where the index never goes outside). -/
def cellAt (r : RawRow) (i : Nat) : Int :=
  r.counts.getD i 0

/-- The distinct `Country/Region` keys produced by
`df.groupby(["Country/Region"])` (pandas sorts the group keys; key order is
irrelevant to every property proved below, so the deduplicated source order
is used). -/
def regionKeys (t : RawTable) : List String :=
  (t.rows.map RawRow.region).dedup

/-- All source rows belonging to one region group. -/
def rowsOf (t : RawTable) (k : String) : List RawRow :=
  t.rows.filter (fun r => r.region == k)

/-- Value of the grouped frame for region `k` at date index `i`: the sum of
the cells of every row keyed `k` (duplicate rows are summed, per
`groupby(...).sum()`). -/
def regionSum (t : RawTable) (k : String) (i : Nat) : Int :=
  ((rowsOf t k).map (fun r => cellAt r i)).sum

/-- One row of `df.groupby(["Country/Region"]).sum()`: the numeric columns
`Lat`, `Long` and the date columns are summed per group; the non-numeric
`Province/State` column is discarded by the numeric sum. -/
structure GroupedRow where
  region : String
  latSum : Int
  longSum : Int
  counts : List Int
deriving Repr, DecidableEq

/-- `df.groupby(["Country/Region"]).sum()` (src/app.py line 38). -/
def groupbySum (t : RawTable) : List GroupedRow :=
  (regionKeys t).map (fun k =>
    { region := k
      latSum := ((rowsOf t k).map RawRow.lat).sum
      longSum := ((rowsOf t k).map RawRow.long).sum
      counts := (List.range t.dates.length).map (fun i => regionSum t k i) })

/-- `df.drop(['Lat', 'Long'], axis=1)` (src/app.py line 40): the summed
coordinate columns are discarded, leaving the region key and its date cells. -/
def dropCoords (g : GroupedRow) : String × List Int :=
  (g.region, g.counts)

/-- The grouped frame after the coordinate columns are dropped: one
`(region, date-cells)` column per distinct region (after the transpose at
line 42 these become the region columns). -/
def grouped (t : RawTable) : List (String × List Int) :=
  (groupbySum t).map dropCoords

/-- `df.sum(axis=1)` at date index `i` (src/app.py line 49): pandas sums the
numeric region columns only, skipping the datetime `ds`/`index` columns. -/
def grandTotal (t : RawTable) (i : Nat) : Int :=
  ((grouped t).map (fun g => g.2.getD i 0)).sum

/-- Errors the script can raise at runtime, by Python exception kind. -/
inductive AppError where
  | keyError : String → AppError
  | indexError : AppError
  | forecastUnavailable : AppError
  | typeError : String → AppError
deriving Repr, DecidableEq

/-- One row of the frame returned by `getData`: exactly the columns selected
at src/app.py line 50 — `ds`, `Mainland China`, `Outside Mainland China`. -/
structure CohortRow where
  ds : String
  mainlandChina : Int
  outsideMainlandChina : Int
deriving Repr, DecidableEq, Inhabited

/-- `getData` (src/app.py lines 24-50): group by region and sum, drop the
coordinate columns, transpose so dates index the rows, then derive
`Outside Mainland China` as the row sum minus the `Mainland China` column.
`df["Mainland China"]` at line 49 raises a `KeyError` when no row carries
that region key. -/
def getData (t : RawTable) : Except AppError (List CohortRow) :=
  match (grouped t).lookup "Mainland China" with
  | none => .error (.keyError "Mainland China")
  | some mcCounts =>
    .ok ((List.range t.dates.length).map (fun i =>
      { ds := t.dates.getD i ""
        mainlandChina := mcCounts.getD i 0
        outsideMainlandChina := grandTotal t i - mcCounts.getD i 0 }))

/-- `getTotal` (src/app.py lines 53-64): the last `Mainland China` cell plus
the last `Outside Mainland China` cell; `iloc[-1]` on an empty frame raises
an `IndexError`. -/
def getTotal (t : RawTable) : Except AppError Int := do
  let df ← getData t
  match df.getLast? with
  | none => .error .indexError
  | some r => .ok (r.mainlandChina + r.outsideMainlandChina)

/-! ### Growth transform -/

/-- Symbolic model of an `np.float64` produced by `np.log` on an integer
count: NaN, negative infinity, or the finite value `log n` for a positive
`n`, kept symbolic (the verified properties never compare finite logs). -/
inductive NpFloat where
  | nan : NpFloat
  | neginf : NpFloat
  | logOf : Int → NpFloat
deriving Repr, DecidableEq, Inhabited

/-- `np.log` on one integer count (src/app.py lines 208 and 211): numpy's
elementwise log is a total function — a negative input gives NaN and zero
gives negative infinity, each with a `RuntimeWarning`, never an exception,
and no epsilon is ever substituted. -/
def npLog (n : Int) : NpFloat :=
  if n < 0 then .nan else if n = 0 then .neginf else .logOf n

/-- `df['y'] = np.log(df[cohort])` (src/app.py lines 206-212): the observed
log series handed to the forecast stage, keyed by the `ds` column. -/
def logSeries (df : List CohortRow) (mainland_china : Bool) :
    List (String × NpFloat) :=
  df.map (fun r =>
    (r.ds, npLog (if mainland_china then r.mainlandChina else r.outsideMainlandChina)))

/-! ### Latest-totals table -/

/-- Symbolic model of the float produced by numpy true division of integer
scalars: NaN, an infinity, or a finite rational value. -/
inductive DivResult where
  | nan : DivResult
  | posinf : DivResult
  | neginf : DivResult
  | finite : Rat → DivResult
deriving Repr, DecidableEq, Inhabited

/-- True division `a / b` of numpy integer scalars (`np.int64`), as produced
by `100*rec/(rec+dec)` at src/app.py line 162: a zero denominator yields
NaN (for `0/0`) or a signed infinity, each with a `RuntimeWarning`, never a
`ZeroDivisionError`; otherwise the exact quotient (float representation
error is not modelled — no verified property compares finite quotients). -/
def npIntDiv (a b : Int) : DivResult :=
  if b = 0 then (if a = 0 then .nan else if 0 < a then .posinf else .neginf)
  else .finite ((a : Rat) / (b : Rat))

/-- Round-half-even on a rational, the tie rule of Python `round`. -/
def roundHalfEven (q : Rat) : Int :=
  let f : Int := ⌊q⌋
  if q - f < 1/2 then f
  else if q - f > 1/2 then f + 1
  else if f % 2 = 0 then f else f + 1

/-- Python `round(x, 2)` on the division result (src/app.py line 162): NaN
and infinities pass through unchanged; a finite value is rounded to two
decimals (binary-float representation error is not modelled). -/
def npRound2 : DivResult → DivResult
  | .finite q => .finite ((roundHalfEven (q * 100) : Rat) / 100)
  | x => x

/-- The data of the table built by `generateLatestTable` (src/app.py
line 162); the code stringifies each value for display, which is dropped
here as presentation. -/
structure LatestTable where
  confirmed : Int
  recovered : Int
  deceased : Int
  recoveryRate : DivResult
deriving Repr, DecidableEq

/-- The `Recovery Rate` cell `round(100*rec/(rec+dec), 2)` of src/app.py
line 162, under numpy integer-scalar true division. -/
def recoveryRateCell (recov decea : Int) : DivResult :=
  npRound2 (npIntDiv (100 * recov) (recov + decea))

/-- `generateLatestTable` (src/app.py lines 157-175): fetch the three
totals, then build the one-row table with the recovery-rate cell. -/
def generateLatestTable (tc tr td : RawTable) : Except AppError LatestTable := do
  let con ← getTotal tc
  let recov ← getTotal tr
  let decea ← getTotal td
  .ok { confirmed := con, recovered := recov, deceased := decea,
        recoveryRate := recoveryRateCell recov decea }

/-! ### Forecast stage -/

/-- One row of the frame returned by `m.predict` (src/app.py lines 79-84):
`ds`, `y_hat`, `y_low`, `y_high`.  The predicted values are modelled as
rationals; their float representation never matters to the properties
below. -/
structure ForecastRow where
  ds : String
  yhat : Rat
  ylow : Rat
  yhigh : Rat
deriving Repr, DecidableEq, Inhabited

/-- The named options `generatePredictions` fixes on the engine
(src/app.py lines 87-91). -/
structure EngineOptions where
  growth : Bool
  intercept : Bool
  nChangepoints : Nat
  changepointsPriorScale : Rat
  draws : Nat
  alpha : Rat
  includeHistory : Bool
deriving Repr, DecidableEq

/-- Modelled from the spec: the Bayesian growth-curve forecasting capability
(`PMProphet(...)`, `m.fit(...)`, `m.predict(...)` from the external
`pmprophet` package) is not part of this repository; per §4.4 of the spec it
is an opaque synchronous capability taking the observed log series and the
named options and returning a forecast record, or failing
(`ForecastUnavailable`, here an uncaught exception from fit or predict). -/
def Engine : Type :=
  EngineOptions → List (String × NpFloat) → Nat → Except AppError (List ForecastRow)

/-- The configuration `generatePredictions` hands the engine: `growth=True`,
`intercept=True`, `n_changepoints=25`, `changepoints_prior_scale=.01`,
`draws=2500`, `alpha=0.2`, `include_history=True` (src/app.py lines 87-91). -/
def pipelineOptions : EngineOptions :=
  { growth := true
    intercept := true
    nChangepoints := 25
    changepointsPriorScale := 1/100
    draws := 2500
    alpha := 1/5
    includeHistory := true }

/-- `generatePredictions` (src/app.py lines 67-92): build the model with the
fixed options, fit it, and predict `N` days ahead.  The engine's result —
success or failure — is returned as-is: the function contains no error
handling. -/
def generatePredictions (e : Engine) (df : List (String × NpFloat)) (N : Nat) :
    Except AppError (List ForecastRow) :=
  e pipelineOptions df N

/-- Modelled from the spec: the engine contract of §4.4/§3 — every forecast
record the capability returns satisfies `lowerBound ≤ pointEstimate ≤
upperBound` at every index. -/
def Engine.meetsIntervalContract (e : Engine) : Prop :=
  ∀ opts df N rows, e opts df N = Except.ok rows →
    ∀ i < rows.length,
      (rows.getD i default).ylow ≤ (rows.getD i default).yhat ∧
      (rows.getD i default).yhat ≤ (rows.getD i default).yhigh

/-! ### Figures and layout -/

/-- The data content of the linear figure built by `plotData`
(src/app.py lines 178-200). -/
structure LinearFigure where
  title : String
  observed : List (String × Int)
deriving Repr, DecidableEq

/-- The data content of the log-forecast figure built by `plotPrediction`
(src/app.py lines 203-248): the observed log trace plus the three forecast
traces. -/
structure LogFigure where
  title : String
  observed : List (String × NpFloat)
  yhatTrace : List (String × Rat)
  yhighTrace : List (String × Rat)
  ylowTrace : List (String × Rat)
deriving Repr, DecidableEq

/-- `plotData` (src/app.py lines 178-200): the linear observed view of one
cohort. -/
def plotData (t : RawTable) (mainland_china : Bool) :
    Except AppError LinearFigure := do
  let df ← getData t
  .ok { title :=
          if mainland_china then "Confirmed Cases in Mainland China"
          else "Confirmed Cases Outside of Mainland China"
        observed := df.map (fun r =>
          (r.ds, if mainland_china then r.mainlandChina else r.outsideMainlandChina)) }

/-- `plotPrediction` (src/app.py lines 203-248): take the log of the chosen
cohort, run the forecast stage, and build the four traces.  There is no
try/except: a failure of `getData` or of the engine propagates out. -/
def plotPrediction (e : Engine) (t : RawTable) (mainland_china : Bool) :
    Except AppError LogFigure := do
  let df ← getData t
  let ys := logSeries df mainland_china
  let ddf ← generatePredictions e ys 7
  .ok { title :=
          if mainland_china then "Forecast (Mainland China)"
          else "Forecast (Outside of Mainland China)"
        observed := ys
        yhatTrace := ddf.map (fun r => (r.ds, r.yhat))
        yhighTrace := ddf.map (fun r => (r.ds, r.yhigh))
        ylowTrace := ddf.map (fun r => (r.ds, r.ylow)) }

/-! ### News panel -/

/-- A `{title, url}` record selected from the news response
(src/app.py line 119). -/
structure NewsArticle where
  title : String
  url : String
deriving Repr, DecidableEq, Inhabited

/-- `getNews` (src/app.py lines 97-123): the external HTTP fetch and JSON
parse are abstracted as the `response` argument; the body's try/except turns
any failure into `None` (here `none`) after printing a message, and on
success selects the title and url of each article. -/
def getNews (response : Except Unit (List NewsArticle)) :
    Option (List NewsArticle) :=
  match response with
  | .ok articles => some (articles.map (fun a => { title := a.title, url := a.url }))
  | .error _ => none

/-- `generateNewsTable` (src/app.py lines 125-155): one table row per
article, for `i in range(min(len(df), max))`.  When `getNews` has returned
`None`, `len(df)` is `len(None)` and raises a `TypeError`. -/
def generateNewsTable (response : Except Unit (List NewsArticle)) (maxN : Nat) :
    Except AppError (List NewsArticle) :=
  match getNews response with
  | none => .error (.typeError "object of type NoneType has no len")
  | some df => .ok ((List.range (min df.length maxN)).map (fun i => df.getD i default))

/-- The data content of `app.layout` (src/app.py lines 270-314). -/
structure Layout where
  chinaLinear : LinearFigure
  chinaLog : LogFigure
  outsideLinear : LinearFigure
  outsideLog : LogFigure
  latest : LatestTable
  news : List NewsArticle
deriving Repr, DecidableEq

/-- The layout construction (src/app.py lines 270-314): Python evaluates the
children in order — `plotData(urlConfirmed)`, `plotPrediction(urlConfirmed)`,
`plotData(urlConfirmed, mainland_china=False)`,
`plotPrediction(urlConfirmed, mainland_china=False)`,
`generateLatestTable()`, `generateNewsTable()` — and the first exception
aborts the whole layout. -/
def buildLayout (e : Engine) (tConfirmed tRecovered tDeceased : RawTable)
    (newsResponse : Except Unit (List NewsArticle)) : Except AppError Layout := do
  let f1 ← plotData tConfirmed true
  let p1 ← plotPrediction e tConfirmed true
  let f2 ← plotData tConfirmed false
  let p2 ← plotPrediction e tConfirmed false
  let latest ← generateLatestTable tConfirmed tRecovered tDeceased
  let news ← generateNewsTable newsResponse 10
  .ok { chinaLinear := f1, chinaLog := p1, outsideLinear := f2, outsideLog := p2,
        latest := latest, news := news }

/-! ### Coordinate scrubbing (for C9) -/

/-- The same table with every coordinate zeroed; two tables with the same
scrub agree on everything except the `Lat`/`Long` cells. -/
def scrubCoords (t : RawTable) : RawTable :=
  { dates := t.dates
    rows := t.rows.map (fun r => { r with lat := 0, long := 0 }) }

/-! ### Concrete sample inputs for witnesses and counterexamples -/

/-- Sample table for the C1 witness: a Mainland China row and a Japan row
over two dates. -/
def tblC1 : RawTable :=
  { dates := ["1/22/20", "1/23/20"]
    rows :=
      [ { province := "Hubei", region := "Mainland China", lat := 30, long := 112,
          counts := [5, 9] }
      , { province := "", region := "Japan", lat := 36, long := 138,
          counts := [2, 3] } ] }

/-- Table for C2: the Mainland China count is zero on the first date. -/
def tblC2 : RawTable :=
  { dates := ["1/22/20", "1/23/20"]
    rows :=
      [ { province := "Hubei", region := "Mainland China", lat := 30, long := 112,
          counts := [0, 5] } ] }

/-- An engine that succeeds with an empty forecast (used to show the
pipeline runs past the log transform without any domain error). -/
def emptyForecastEngine : Engine :=
  fun _ _ _ => Except.ok []

/-- Table for the C3 counterexample: no row carries `Mainland China`. -/
def tblC3 : RawTable :=
  { dates := ["1/22/20"]
    rows := [ { province := "", region := "Japan", lat := 36, long := 138,
                counts := [5] } ] }

/-- Table for the C3 witness: again no `Mainland China` row. -/
def tblC3w : RawTable :=
  { dates := ["1/22/20"]
    rows := [ { province := "", region := "US", lat := 38, long := -97,
                counts := [2] } ] }

/-- Confirmed-cases table for the C4 witness (total 7). -/
def tblC4c : RawTable :=
  { dates := ["1/22/20"]
    rows := [ { province := "Hubei", region := "Mainland China", lat := 30,
                long := 112, counts := [7] } ] }

/-- Recovered-cases table for the C4 witness (total 0). -/
def tblC4r : RawTable :=
  { dates := ["1/22/20"]
    rows := [ { province := "Hubei", region := "Mainland China", lat := 30,
                long := 112, counts := [0] } ] }

/-- Deceased-cases table for the C4 witness (total 0). -/
def tblC4d : RawTable :=
  { dates := ["1/22/20"]
    rows := [ { province := "Hubei", region := "Mainland China", lat := 30,
                long := 112, counts := [0] } ] }

/-- An engine whose fit always fails (non-convergence). -/
def failEngine : Engine :=
  fun _ _ _ => Except.error AppError.forecastUnavailable

/-- Table for C5: one Mainland China row over one date. -/
def tblC5 : RawTable :=
  { dates := ["1/22/20"]
    rows := [ { province := "Hubei", region := "Mainland China", lat := 30,
                long := 112, counts := [1] } ] }

/-- An engine returning one fixed, correctly ordered forecast row
(for the C7 witness). -/
def constEngine : Engine :=
  fun _ _ _ => Except.ok [{ ds := "2/20/20", yhat := 1, ylow := 0, yhigh := 2 }]

/-- Table for C8: two duplicate `Mainland China` rows plus a Japan row. -/
def tblC8 : RawTable :=
  { dates := ["1/22/20"]
    rows :=
      [ { province := "Hubei", region := "Mainland China", lat := 30, long := 112,
          counts := [5] }
      , { province := "Beijing", region := "Mainland China", lat := 40, long := 116,
          counts := [6] }
      , { province := "", region := "Japan", lat := 36, long := 138,
          counts := [2] } ] }

/-- Table for C9: same counts as `tblC9b`, different coordinates. -/
def tblC9a : RawTable :=
  { dates := ["1/22/20"]
    rows :=
      [ { province := "Hubei", region := "Mainland China", lat := 30, long := 112,
          counts := [5] }
      , { province := "", region := "Japan", lat := 36, long := 138,
          counts := [2] } ] }

/-- Table for C9: same counts as `tblC9a`, different coordinates. -/
def tblC9b : RawTable :=
  { dates := ["1/22/20"]
    rows :=
      [ { province := "Hubei", region := "Mainland China", lat := 999, long := -999,
          counts := [5] }
      , { province := "", region := "Japan", lat := 0, long := 7, counts := [2] } ] }

/-- Table for the C10 witness: two regions over two dates. -/
def tblC10 : RawTable :=
  { dates := ["1/22/20", "1/23/20"]
    rows :=
      [ { province := "Hubei", region := "Mainland China", lat := 30, long := 112,
          counts := [1, 4] }
      , { province := "", region := "Japan", lat := 36, long := 138,
          counts := [2, 5] } ] }

/-! ### Helper lemmas about the aggregator -/

theorem lookup_map_pair {α : Type} (f : String → α) (ks : List String) (k : String) :
    (ks.map (fun x => (x, f x))).lookup k = if k ∈ ks then some (f k) else none := by
  induction ks with
  | nil => rfl
  | cons a as ih =>
    by_cases h : k = a
    · subst h
      simp [List.lookup]
    · have hb : (k == a) = false := by simp [h]
      simp [List.lookup, hb, ih, h]

theorem grouped_eq (t : RawTable) :
    grouped t = (regionKeys t).map (fun k =>
      (k, (List.range t.dates.length).map (fun i => regionSum t k i))) := by
  simp [grouped, groupbySum, dropCoords, List.map_map]

theorem mem_regionKeys_iff (t : RawTable) (k : String) :
    k ∈ regionKeys t ↔ ∃ r ∈ t.rows, r.region = k := by
  simp [regionKeys, List.mem_dedup]

theorem getD_map_range {α : Type} (n i : Nat) (hi : i < n) (f : Nat → α) (d : α) :
    ((List.range n).map f).getD i d = f i := by
  rw [List.getD_eq_getElem?_getD, List.getElem?_map, List.getElem?_range hi]
  rfl

theorem getData_of_mem (t : RawTable) (h : "Mainland China" ∈ regionKeys t) :
    getData t = .ok ((List.range t.dates.length).map (fun i =>
      { ds := t.dates.getD i ""
        mainlandChina := regionSum t "Mainland China" i
        outsideMainlandChina :=
          grandTotal t i - regionSum t "Mainland China" i })) := by
  have hl : (grouped t).lookup "Mainland China"
      = some ((List.range t.dates.length).map
          (fun i => regionSum t "Mainland China" i)) := by
    rw [grouped_eq, lookup_map_pair]
    simp [h]
  simp only [getData, hl]
  congr 1
  apply List.map_congr_left
  intro i hi
  have hi' : i < t.dates.length := List.mem_range.mp hi
  rw [getD_map_range _ _ hi']

theorem getData_of_not_mem (t : RawTable) (h : "Mainland China" ∉ regionKeys t) :
    getData t = .error (.keyError "Mainland China") := by
  have hl : (grouped t).lookup "Mainland China" = none := by
    rw [grouped_eq, lookup_map_pair]
    simp [h]
  simp [getData, hl]

theorem mem_of_getData_ok (t : RawTable) (rows : List CohortRow)
    (h : getData t = .ok rows) : "Mainland China" ∈ regionKeys t := by
  by_cases hm : "Mainland China" ∈ regionKeys t
  · exact hm
  · rw [getData_of_not_mem t hm] at h
    exact absurd h (by simp)

theorem getData_ok_eq (t : RawTable) (rows : List CohortRow)
    (h : getData t = .ok rows) :
    rows = (List.range t.dates.length).map (fun i =>
      { ds := t.dates.getD i ""
        mainlandChina := regionSum t "Mainland China" i
        outsideMainlandChina :=
          grandTotal t i - regionSum t "Mainland China" i }) := by
  have hm := mem_of_getData_ok t rows h
  rw [getData_of_mem t hm] at h
  exact (Except.ok.inj h).symm

theorem getData_ok_length (t : RawTable) (rows : List CohortRow)
    (h : getData t = .ok rows) : rows.length = t.dates.length := by
  rw [getData_ok_eq t rows h]
  simp

/-! ### C1: cohort conservation -/

/-- C1 (confirmed): for every well-formed `RawTable` and every date index of
the frame produced by `getData`, the `Mainland China` value plus the
`Outside Mainland China` value equals the grand total across all region
columns for that date. -/
theorem cohort_conservation (t : RawTable) (rows : List CohortRow)
    (hwf : t.wellFormed) (hok : getData t = .ok rows)
    (i : Nat) (hi : i < rows.length) :
    (rows.getD i default).mainlandChina + (rows.getD i default).outsideMainlandChina
      = grandTotal t i := by
  have hlen := getData_ok_length t rows hok
  have hr := getData_ok_eq t rows hok
  subst hr
  rw [getD_map_range _ _ (by omega)]
  show regionSum t "Mainland China" i
      + (grandTotal t i - regionSum t "Mainland China" i) = grandTotal t i
  omega

/-- Witness for C1 at a concrete two-region table. -/
theorem cohort_conservation_witness :
    (([⟨"1/22/20", 5, 2⟩, ⟨"1/23/20", 9, 3⟩] : List CohortRow).getD 0 default).mainlandChina
      + (([⟨"1/22/20", 5, 2⟩, ⟨"1/23/20", 9, 3⟩] : List CohortRow).getD 0 default).outsideMainlandChina
      = grandTotal tblC1 0 :=
  cohort_conservation tblC1 [⟨"1/22/20", 5, 2⟩, ⟨"1/23/20", 9, 3⟩]
    (by decide) (by rfl) 0 (by decide)

theorem getD_map {α β : Type} [Inhabited α] [Inhabited β] (l : List α) (f : α → β)
    (i : Nat) (hi : i < l.length) :
    (l.map f).getD i default = f (l.getD i default) := by
  rw [List.getD_eq_getElem?_getD, List.getD_eq_getElem?_getD, List.getElem?_map,
    List.getElem?_eq_getElem hi]
  rfl

/-! ### C2: growth-transform zero handling -/

/-- C2 counterexample (corrected): with a zero `Mainland China` count on the
first date, the growth-view pipeline does not fail with any domain error —
`np.log(0)` silently produces negative infinity (with a `RuntimeWarning`) and
the run proceeds to a figure whose observed trace carries `-inf` for that
date. -/
theorem log_zero_no_error_cex :
    plotPrediction emptyForecastEngine tblC2 true =
      .ok { title := "Forecast (Mainland China)"
            observed := [("1/22/20", NpFloat.neginf), ("1/23/20", NpFloat.logOf 5)]
            yhatTrace := []
            yhighTrace := []
            ylowTrace := [] } := rfl

/-- C2 amended (corrected): a count of zero on some date makes the log
transform produce negative infinity at that date — not a raised
`NonPositiveValue` error — and the transform is total (every date survives);
no epsilon or clamped finite value is substituted, since `npLog` sends zero
to `neginf`, never to a finite `logOf` value. -/
theorem log_zero_neginf (df : List CohortRow) (mainland_china : Bool)
    (i : Nat) (hi : i < df.length)
    (hz : (if mainland_china then (df.getD i default).mainlandChina
           else (df.getD i default).outsideMainlandChina) = 0) :
    (logSeries df mainland_china).length = df.length ∧
    ((logSeries df mainland_china).getD i default).2 = NpFloat.neginf := by
  constructor
  · simp [logSeries]
  · rw [logSeries, getD_map _ _ _ hi]
    show npLog (if mainland_china then (df.getD i default).mainlandChina
           else (df.getD i default).outsideMainlandChina) = NpFloat.neginf
    rw [hz]
    rfl

/-- Witness for the amended C2 at a one-row cohort frame with a zero count. -/
theorem log_zero_neginf_witness :
    (logSeries [⟨"1/22/20", 0, 7⟩] true).length
        = ([⟨"1/22/20", 0, 7⟩] : List CohortRow).length ∧
      ((logSeries [⟨"1/22/20", 0, 7⟩] true).getD 0 default).2 = NpFloat.neginf :=
  log_zero_neginf [⟨"1/22/20", 0, 7⟩] true 0 (by decide) (by rfl)

/-! ### C3: missing distinguished region -/

/-- C3 counterexample (corrected): on a table with no `Mainland China` row,
`getData` raises a `KeyError` instead of returning a cohort series with a
zero distinguished count. -/
theorem missing_region_soft_fail_cex :
    getData tblC3 = .error (.keyError "Mainland China") := rfl

/-- C3 amended (corrected): whenever no row of the table carries the region
key `Mainland China`, `getData` fails with a `KeyError` for that column
(raised by `df["Mainland China"]` at src/app.py line 49); there is no
soft-fail to zero. -/
theorem missing_region_raises (t : RawTable)
    (habs : ∀ r ∈ t.rows, r.region ≠ "Mainland China") :
    getData t = .error (.keyError "Mainland China") := by
  apply getData_of_not_mem
  rw [mem_regionKeys_iff]
  rintro ⟨r, hr, hreg⟩
  exact habs r hr hreg

/-- Witness for the amended C3 at a concrete single-region table. -/
theorem missing_region_raises_witness :
    getData tblC3w = .error (.keyError "Mainland China") :=
  missing_region_raises tblC3w (by decide)

/-! ### C4: recovery-rate zero denominator -/

/-- C4 (confirmed): when the recovered and deceased totals are both zero,
the recovery-rate cell of `generateLatestTable` is the NaN produced by numpy
integer-scalar true division `0/0` (with a `RuntimeWarning`, not an
exception) — one deterministic sentinel value, never a crash. -/
theorem recovery_rate_zero_denominator (tc tr td : RawTable) (tbl : LatestTable)
    (h : generateLatestTable tc tr td = .ok tbl)
    (hrec : tbl.recovered = 0) (hdec : tbl.deceased = 0) :
    tbl.recoveryRate = DivResult.nan := by
  cases hc : getTotal tc with
  | error e => simp [generateLatestTable, hc, bind, Except.bind] at h
  | ok con =>
    cases hrv : getTotal tr with
    | error e => simp [generateLatestTable, hc, hrv, bind, Except.bind] at h
    | ok recov =>
      cases hd : getTotal td with
      | error e => simp [generateLatestTable, hc, hrv, hd, bind, Except.bind] at h
      | ok decea =>
        simp only [generateLatestTable, hc, hrv, hd, bind, Except.bind,
          Except.ok.injEq] at h
        subst h
        simp only at hrec hdec
        subst hrec
        subst hdec
        rfl

/-- Witness for C4 at concrete tables with zero recovered and deceased
totals. -/
theorem recovery_rate_zero_denominator_witness :
    ({ confirmed := 7, recovered := 0, deceased := 0,
       recoveryRate := DivResult.nan } : LatestTable).recoveryRate
      = DivResult.nan :=
  recovery_rate_zero_denominator tblC4c tblC4r tblC4d
    { confirmed := 7, recovered := 0, deceased := 0,
      recoveryRate := DivResult.nan }
    (by rfl) rfl rfl

/-! ### C5: forecast-failure propagation -/

/-- C5 counterexample (corrected): with an engine whose fit fails, the
forecast failure is not converted into a skipped forecast — `plotPrediction`
itself fails, and the whole layout construction aborts with the same error,
so the linear observed view does not render either. -/
theorem forecast_failure_aborts_cex :
    plotPrediction failEngine tblC5 true = .error .forecastUnavailable ∧
    buildLayout failEngine tblC5 tblC5 tblC5
        (Except.ok [{ title := "headline", url := "u" }])
      = .error .forecastUnavailable := ⟨rfl, rfl⟩

/-- C5 amended (corrected): when the engine fails (`ForecastUnavailable`),
`generatePredictions` returns the failure unhandled, `plotPrediction`
propagates it, and the entire layout build — including the linear observed
figures evaluated alongside it — aborts with that error; nothing renders. -/
theorem forecast_failure_aborts (e : Engine) (t tr td : RawTable)
    (news : Except Unit (List NewsArticle)) (df : List CohortRow)
    (hok : getData t = .ok df)
    (hfail : ∀ ys N, e pipelineOptions ys N
      = Except.error AppError.forecastUnavailable) :
    plotPrediction e t true = .error .forecastUnavailable ∧
    buildLayout e t tr td news = .error .forecastUnavailable := by
  have h1 : plotPrediction e t true = Except.error AppError.forecastUnavailable := by
    simp [plotPrediction, generatePredictions, hok, hfail, bind, Except.bind]
  refine ⟨h1, ?_⟩
  simp [buildLayout, plotData, hok, h1, bind, Except.bind]

/-- Witness for the amended C5 with a concretely failing engine. -/
theorem forecast_failure_aborts_witness :
    plotPrediction failEngine tblC5 true = .error .forecastUnavailable ∧
    buildLayout failEngine tblC5 tblC5 tblC5 (Except.error ())
      = .error .forecastUnavailable :=
  forecast_failure_aborts failEngine tblC5 tblC5 tblC5 (Except.error ())
    [{ ds := "1/22/20", mainlandChina := 1, outsideMainlandChina := 0 }]
    (by rfl) (fun _ _ => rfl)

/-! ### C6: news-failure recoverability -/

/-- C6 (code bug): when the external news fetch fails, `getNews` itself
soft-fails to `None` (its own except-branch prints a message and returns
`None`, showing recovery is the intent), but `generateNewsTable` then
evaluates `len(None)` inside `range(min(len(df), max))` and raises a
`TypeError`, crashing the refresh instead of rendering an empty panel. -/
theorem news_failure_crashes_table :
    getNews (Except.error ()) = none ∧
    generateNewsTable (Except.error ()) 10
      = .error (.typeError "object of type NoneType has no len") := ⟨rfl, rfl⟩

/-! ### C7: forecast interval ordering -/

/-- C7 (confirmed, with the engine modelled from the spec): the forecast
stage `generatePredictions` returns the engine's record unmodified, so for
every record it returns, `y_low ≤ y_hat ≤ y_high` holds at every index
whenever the external engine meets its §4.4 interval contract. -/
theorem forecast_interval_ordered (e : Engine)
    (he : Engine.meetsIntervalContract e)
    (df : List (String × NpFloat)) (N : Nat) (rows : List ForecastRow)
    (h : generatePredictions e df N = Except.ok rows)
    (i : Nat) (hi : i < rows.length) :
    (rows.getD i default).ylow ≤ (rows.getD i default).yhat ∧
    (rows.getD i default).yhat ≤ (rows.getD i default).yhigh :=
  he pipelineOptions df N rows h i hi

/-- Witness for C7 with a concrete contract-satisfying engine. -/
theorem forecast_interval_ordered_witness :
    (([{ ds := "2/20/20", yhat := 1, ylow := 0, yhigh := 2 }] :
        List ForecastRow).getD 0 default).ylow
        ≤ (([{ ds := "2/20/20", yhat := 1, ylow := 0, yhigh := 2 }] :
        List ForecastRow).getD 0 default).yhat ∧
      (([{ ds := "2/20/20", yhat := 1, ylow := 0, yhigh := 2 }] :
        List ForecastRow).getD 0 default).yhat
        ≤ (([{ ds := "2/20/20", yhat := 1, ylow := 0, yhigh := 2 }] :
        List ForecastRow).getD 0 default).yhigh :=
  forecast_interval_ordered constEngine
    (fun opts df N rows h => by
      injection h with h2
      subst h2
      intro i hi
      have hi0 : i = 0 := Nat.lt_one_iff.mp (by simpa using hi)
      subst hi0
      exact ⟨by decide, by decide⟩)
    [] 7 [{ ds := "2/20/20", yhat := 1, ylow := 0, yhigh := 2 }] rfl 0 (by decide)

/-! ### C8: duplicate-row tolerance -/

/-- C8 (confirmed): on a table containing duplicate region rows, the
aggregator keeps exactly one column per region (`grouped` keys have no
duplicates, so no row is rejected) and the `Mainland China` cohort count at
every date equals the sum of the cells of every source row keyed
`Mainland China` — duplicates included. -/
theorem duplicate_rows_aggregated (t : RawTable) (rows : List CohortRow)
    (hdup : ∃ n₁ < t.rows.length, ∃ n₂ < t.rows.length, n₁ ≠ n₂ ∧
      (t.rows.getD n₁ default).region = (t.rows.getD n₂ default).region)
    (hok : getData t = .ok rows)
    (i : Nat) (hi : i < t.dates.length) :
    ((grouped t).map Prod.fst).Nodup ∧
    (rows.getD i default).mainlandChina
      = ((t.rows.filter (fun r => r.region == "Mainland China")).map
          (fun r => cellAt r i)).sum := by
  constructor
  · rw [grouped_eq]
    have hfst : ((regionKeys t).map (fun k =>
        (k, (List.range t.dates.length).map (fun j => regionSum t k j)))).map
          Prod.fst = regionKeys t := by
      have hid : (Prod.fst ∘ fun k : String =>
          (k, (List.range t.dates.length).map (fun j => regionSum t k j))) = id := rfl
      rw [List.map_map, hid, List.map_id]
    rw [hfst]
    exact List.nodup_dedup _
  · have hr := getData_ok_eq t rows hok
    subst hr
    rw [getD_map_range _ _ hi]
    rfl

/-- Witness for C8 at a table with two `Mainland China` rows. -/
theorem duplicate_rows_aggregated_witness :
    ((grouped tblC8).map Prod.fst).Nodup ∧
    (([⟨"1/22/20", 11, 2⟩] : List CohortRow).getD 0 default).mainlandChina
      = ((tblC8.rows.filter (fun r => r.region == "Mainland China")).map
          (fun r => cellAt r 0)).sum :=
  duplicate_rows_aggregated tblC8 [⟨"1/22/20", 11, 2⟩] (by decide) (by rfl)
    0 (by decide)

/-! ### C9: coordinate-column elimination -/

theorem regionKeys_scrub (t : RawTable) :
    regionKeys (scrubCoords t) = regionKeys t := by
  simp only [regionKeys, scrubCoords, List.map_map]
  rfl

theorem rowsOf_scrub (t : RawTable) (k : String) :
    rowsOf (scrubCoords t) k
      = (rowsOf t k).map (fun r => { r with lat := 0, long := 0 }) := by
  simp only [rowsOf, scrubCoords, List.filter_map]
  rfl

theorem regionSum_scrub (t : RawTable) (k : String) (i : Nat) :
    regionSum (scrubCoords t) k i = regionSum t k i := by
  rw [regionSum, rowsOf_scrub, List.map_map]
  rfl

theorem grouped_scrub (t : RawTable) : grouped (scrubCoords t) = grouped t := by
  rw [grouped_eq, grouped_eq, regionKeys_scrub]
  apply List.map_congr_left
  intro k _
  show (k, (List.range t.dates.length).map (fun i => regionSum (scrubCoords t) k i))
    = (k, (List.range t.dates.length).map (fun i => regionSum t k i))
  simp [regionSum_scrub]

theorem getData_scrub (t : RawTable) : getData (scrubCoords t) = getData t := by
  have hgt : ∀ i, grandTotal (scrubCoords t) i = grandTotal t i := by
    intro i
    rw [grandTotal, grandTotal, grouped_scrub t]
  by_cases hm : "Mainland China" ∈ regionKeys t
  · have hm' : "Mainland China" ∈ regionKeys (scrubCoords t) := by
      rw [regionKeys_scrub]
      exact hm
    rw [getData_of_mem _ hm', getData_of_mem _ hm]
    show Except.ok ((List.range t.dates.length).map (fun i =>
        ({ ds := t.dates.getD i ""
           mainlandChina := regionSum (scrubCoords t) "Mainland China" i
           outsideMainlandChina := grandTotal (scrubCoords t) i
             - regionSum (scrubCoords t) "Mainland China" i } : CohortRow)))
      = Except.ok ((List.range t.dates.length).map (fun i =>
        ({ ds := t.dates.getD i ""
           mainlandChina := regionSum t "Mainland China" i
           outsideMainlandChina := grandTotal t i
             - regionSum t "Mainland China" i } : CohortRow)))
    congr 1
    apply List.map_congr_left
    intro i _
    rw [regionSum_scrub, hgt i]
  · have hm' : "Mainland China" ∉ regionKeys (scrubCoords t) := by
      rw [regionKeys_scrub]
      exact hm
    rw [getData_of_not_mem _ hm', getData_of_not_mem _ hm]

/-- C9 (confirmed): the coordinate columns contribute nothing downstream —
two tables that agree on everything except their `Lat`/`Long` cells produce
identical `getData` output (whose rows, by the `CohortRow` type, carry
exactly `ds`, `Mainland China` and `Outside Mainland China`), so no
coordinate value is counted into any cohort sum. -/
theorem coordinate_columns_eliminated (t u : RawTable)
    (h : scrubCoords t = scrubCoords u) : getData t = getData u := by
  rw [← getData_scrub t, h, getData_scrub u]

/-- Witness for C9 at two concrete tables differing only in coordinates. -/
theorem coordinate_columns_eliminated_witness :
    getData tblC9a = getData tblC9b :=
  coordinate_columns_eliminated tblC9a tblC9b (by rfl)

/-! ### C10: latest grand total -/

/-- C10 (confirmed): `getTotal` returns the `Mainland China` value plus the
`Outside Mainland China` value of the final row of `getData`, which equals
the grand total across all regions at the last date. -/
theorem latest_total_is_grand_total (t : RawTable) (rows : List CohortRow)
    (hok : getData t = .ok rows) (hne : t.dates ≠ []) :
    getTotal t = .ok (grandTotal t (t.dates.length - 1)) := by
  have hn : 0 < t.dates.length := List.length_pos.mpr hne
  have hr := getData_ok_eq t rows hok
  have hlast : rows.getLast? = some
      { ds := t.dates.getD (t.dates.length - 1) ""
        mainlandChina := regionSum t "Mainland China" (t.dates.length - 1)
        outsideMainlandChina := grandTotal t (t.dates.length - 1)
          - regionSum t "Mainland China" (t.dates.length - 1) } := by
    rw [hr, List.getLast?_eq_getElem?]
    simp only [List.length_map, List.length_range, List.getElem?_map]
    rw [List.getElem?_range (by omega)]
    rfl
  simp only [getTotal, hok, bind, Except.bind, hlast, Except.ok.injEq]
  show regionSum t "Mainland China" (t.dates.length - 1)
      + (grandTotal t (t.dates.length - 1)
        - regionSum t "Mainland China" (t.dates.length - 1))
    = grandTotal t (t.dates.length - 1)
  omega

/-- Witness for C10 at a concrete two-region, two-date table. -/
theorem latest_total_is_grand_total_witness :
    getTotal tblC10 = .ok (grandTotal tblC10 (tblC10.dates.length - 1)) :=
  latest_total_is_grand_total tblC10
    [⟨"1/22/20", 1, 2⟩, ⟨"1/23/20", 4, 5⟩] (by rfl) (by decide)

end Covid
